import Mathlib

/-
  Verification development for the arcade-ai tool runtime.

  Shallow embedding of the schema-inference engine (arcade/tool/catalog.py),
  the output envelope factory (arcade/core/output.py), the error taxonomy
  (arcade/core/errors.py), the tool decorator (arcade/sdk/tool.py), the
  parameter markers (arcade/sdk/annotations.py), the actor base
  (arcade/actor/core/base.py), the FastAPI router adapter
  (arcade/actor/fastapi/actor.py) and the worker components
  (arcade/worker/core/components.py).

  Python runtime values are modelled by `PyVal`, Python type expressions by
  `PyType`, and `Annotated` metadata by `PyMeta`.  Registration-time
  exceptions are modelled with `Except RegError`.
-/

namespace Arcade

deriving instance DecidableEq for Except

/-- Python runtime values as far as the claims need them: `None`, booleans,
integers, strings and lists.  (Floats never appear in any claim's inputs.) -/
inductive PyVal where
  | none
  | bool (b : Bool)
  | int (n : Int)
  | str (s : String)
  | list (xs : List PyVal)

/-- Python truthiness for the values of `PyVal` (`None`, `False`, `0`, `""`
and `[]` are falsy). -/
def PyVal.truthy : PyVal → Bool
  | .none => false
  | .bool b => b
  | .int n => decide (n ≠ 0)
  | .str s => decide (s ≠ "")
  | .list xs => !xs.isEmpty

/-- The Python `x is None` test on a modelled value. -/
def PyVal.isNone : PyVal → Bool
  | .none => true
  | _ => false

/-- The closed wire-type enumeration of arcade/sdk/schemas.ValueSchema:
string | integer | float | boolean | json. -/
inductive WireType where
  | string
  | integer
  | float
  | boolean
  | json
deriving DecidableEq, Repr

/-- Python type expressions, as inspected by catalog.py: the bare builtin
classes, `NoneType`, the `pydantic.BaseModel` class and its subclasses,
`Union[...]`, `Literal[...]`, parameterized generics such as `list[int]` or
`set[int]` (which carry an `__origin__`), and any other plain class. -/
inductive PyType where
  | str
  | bool
  | int
  | float
  | dict
  | list
  | tuple
  | set
  | noneType
  | baseModel
  | modelSub (name : String)
  | unionOf (args : List PyType)
  | literalOf (vals : List PyVal)
  | generic (origin : PyType) (args : List PyType)
  | otherType (name : String)

/-- Whether the expression carries an `__origin__` attribute (parameterized
generics and the `Union`/`Literal` special forms do; bare classes do not). -/
def PyType.hasOrigin : PyType → Bool
  | .unionOf _ => true
  | .literalOf _ => true
  | .generic _ _ => true
  | _ => false

/-- The Python test `t.__origin__ in [list, dict]`: only a parameterized
generic whose origin class is `list` or `dict` passes; `Union[...]` and
`Literal[...]` have the special forms `typing.Union` / `typing.Literal` as
origin, which are neither. -/
def PyType.originIsListOrDict : PyType → Bool
  | .generic .list _ => true
  | .generic .dict _ => true
  | _ => false

/-- `issubclass(t, BaseModel)` for the class-like constructors of `PyType`. -/
def PyType.isBaseModelSubclass : PyType → Bool
  | .baseModel => true
  | .modelSub _ => true
  | _ => false

/-- The `NoneType` test used when unwrapping `Optional[...]`. -/
def PyType.isNoneType : PyType → Bool
  | .noneType => true
  | _ => false

/-- arcade/utils.is_string_literal: true iff the type is `Literal[...]` with
all arguments strings. -/
def is_string_literal (t : PyType) : Bool :=
  match t with
  | .literalOf vals => vals.all fun v => match v with | .str _ => true | _ => false
  | _ => false

/-- The string values of a string `Literal[...]` (the enum list built in
create_input_definition: `[str(e) for e in get_args(...)]`). -/
def stringLiteralValues (t : PyType) : List String :=
  match t with
  | .literalOf vals => vals.filterMap fun v => match v with | .str s => some s | _ => none
  | _ => []

/-- Registration-time exceptions.  All constructors but `typeErrorNoAnnot`
model `ToolDefinitionError` (arcade/core/errors.py); `typeErrorNoAnnot` models
the plain `TypeError` raised by extract_field_info for a parameter without a
type annotation. -/
inductive RegError where
  | missingToolDescription (tool : String)
  | missingReturnTypeAnnot (tool : String)
  | missingParameterDescription (param : String)
  | tooManyStringAnnots (param : String)
  | unsupportedParameterType
  | typeErrorNoAnnot (param : String)
deriving DecidableEq, Repr

/-- Which registration errors are `ToolDefinitionError`s (as opposed to the
bare `TypeError` for a missing annotation). -/
def RegError.isToolDefinitionError : RegError → Bool
  | .typeErrorNoAnnot _ => false
  | _ => true

/-- catalog.py get_wire_type's `type_mapping` dict.  The lookup succeeds only
on the exact keys `str`, `bool`, `int`, `float`, `dict`, `list` and the
`BaseModel` class itself (parameterized forms such as `list[int]` are
distinct dictionary keys and miss). -/
def type_mapping : PyType → Option WireType
  | .str => some .string
  | .bool => some .boolean
  | .int => some .integer
  | .float => some .float
  | .dict => some .json
  | .list => some .json
  | .baseModel => some .json
  | _ => none

/-- catalog.py get_wire_type.  `Except RegError (Option WireType)`: `.error`
models a raised `ToolDefinitionError`, `.ok (some w)` a returned wire type,
and `.ok none` the silent fall-through: when the type has an `__origin__`
that is neither `list` nor `dict`, the `elif` chain ends without a `return`
and the Python function returns `None`. -/
def get_wire_type (t : PyType) : Except RegError (Option WireType) :=
  match type_mapping t with
  | some w => .ok (some w)
  | Option.none =>
    if t.hasOrigin then
      if t.originIsListOrDict then .ok (some .json)
      else .ok none
    else if t.isBaseModelSubclass then .ok (some .json)
    else .error .unsupportedParameterType

example : get_wire_type .str = .ok (some .string) := rfl
example : get_wire_type (.generic .list [.str]) = .ok (some .json) := rfl
example : get_wire_type (.generic .set [.int]) = .ok none := rfl
example : get_wire_type (.otherType "bytes") = .error .unsupportedParameterType := rfl

/-- Instances of sdk/annotations.Inferrable.  `BaseParamAnnotation.__new__`
unconditionally raises `TypeError("Type BaseParamAnnotation cannot be
instantiated.")`, and subscription `Inferrable[t, m...]` returns a plain
`_AnnotatedAlias(t, (m...))` carrying no trace of the class, so no instance
of `Inferrable` can ever be constructed: the type of such instances is
empty. -/
inductive InferrableInst : Type where

/-- The `.value` attribute read by catalog.py (`inferrable_annotation.value`).
The `Inferrable` class declares no such attribute (`__slots__ = ()`); the
access could only happen on an instance, and no instance exists. -/
def InferrableInst.value : InferrableInst → Bool := fun i => nomatch i

/-- Objects that can occur in `typing.get_args` of a parameter annotation:
free-form description strings, type objects, annotation marker classes
themselves (e.g. writing `Annotated[str, "d", Opaque]` puts the class object
in the metadata; `isinstance(cls, Inferrable)` is false for a class object),
hypothetical `Inferrable` instances (an empty type, see `InferrableInst`),
and any other object. -/
inductive PyMeta where
  | str (s : String)
  | typeObj (t : PyType)
  | classObj (name : String)
  | inferrableInst (i : InferrableInst)
  | otherObj (name : String)

/-- A parameter annotation: either a bare type or `Annotated[base, meta...]`. -/
inductive PyAnnot where
  | plain (t : PyType)
  | annotated (base : PyType) (meta : List PyMeta)

/-- `getattr(annotation, "__metadata__", [])`: only `Annotated[...]` carries
metadata. -/
def PyAnnot.metadata : PyAnnot → List PyMeta
  | .plain _ => []
  | .annotated _ meta => meta

/-- `typing.get_args(annotation)`: for `Annotated[base, meta...]` this is
`(base, meta...)`; for `Union`/generic/`Literal` forms it is their argument
tuple (type objects, or the literal values); bare classes have no args. -/
def PyAnnot.getArgs : PyAnnot → List PyMeta
  | .annotated base meta => PyMeta.typeObj base :: meta
  | .plain t =>
    match t with
    | .unionOf args => args.map PyMeta.typeObj
    | .generic _ args => args.map PyMeta.typeObj
    | .literalOf vals =>
      vals.map fun v => match v with
        | .str s => PyMeta.str s
        | _ => PyMeta.otherObj "literal-value"
    | _ => []

/-- arcade/utils.first_or_none specialized to the `Inferrable` class, as
called by extract_field_info: the first element of the argument tuple that is
an `isinstance` of `Inferrable`, or `None`. -/
def first_or_none_inferrable : List PyMeta → Option InferrableInst
  | [] => none
  | .inferrableInst i :: _ => some i
  | _ :: rest => first_or_none_inferrable rest

/-- A pydantic `Field(...)` used as a parameter default.  `default = none`
models `PydanticUndefined` (no default given to the Field). -/
structure FieldInfoData where
  default : Option PyVal
  description : Option String

/-- A parameter's declared default: absent (`inspect.Parameter.empty`), a
plain value, or a pydantic `FieldInfo`. -/
inductive ParamDefault where
  | empty
  | val (v : PyVal)
  | fieldInfo (fi : FieldInfoData)

/-- One declared parameter of a native callable, as seen by
`inspect.signature`: its name, its annotation (`none` models
`inspect.Parameter.empty`) and its default. -/
structure PyParam where
  name : String
  annot : Option PyAnnot
  default : ParamDefault

/-- catalog.py's ToolFieldInfo dataclass. -/
structure ToolFieldInfo where
  name : String
  description : Option String
  default : PyVal
  original_type : PyType
  field_type : PyType
  wire_type : Option WireType
  optional : Bool
  inferrable : Bool

/-- The Optional-unwrapping step shared by the extract functions and
create_output_definition: if `get_origin(t) is Union` and `NoneType` is among
`get_args(t)`, replace `t` by the *first* non-None argument (`next(...)`) and
flag it optional.  (A Union whose args are all `NoneType` cannot arise:
Python collapses `Union[None, None]` to `NoneType`, which is not a Union.) -/
def unwrapOptional (t : PyType) : PyType × Bool :=
  match t with
  | .unionOf args =>
    if args.any PyType.isNoneType then
      match args.find? (fun a => !a.isNoneType) with
      | some a => (a, true)
      | none => (t, true)
    else (t, false)
  | _ => (t, false)

/-- catalog.py extract_regular_field_info.  `default` stores
`param.default if param.default is not inspect.Parameter.empty else None`,
so a declared default of `None` and an absent default are indistinguishable
(both stored as `None`).  (A `FieldInfo` default never reaches this function;
extract_field_info dispatches it to the pydantic variant.) -/
def extract_regular_field_info (name : String) (dflt : ParamDefault) (ann : PyAnnot) :
    ToolFieldInfo :=
  let original_type :=
    match ann with
    | .annotated base _ => base
    | .plain t => t
  let unwrapped := unwrapOptional original_type
  { name := name
    description := none
    default := match dflt with
      | .val v => v
      | _ => .none
    optional := unwrapped.2
    inferrable := true
    original_type := original_type
    field_type := unwrapped.1
    wire_type := none }

/-- catalog.py extract_pydantic_field_info.  `is_required` is
`param.default.default is PydanticUndefined`; the stored default is `None`
when undefined, otherwise the Field's default; `optional` is
`is_optional or not is_required`. -/
def extract_pydantic_field_info (name : String) (fi : FieldInfoData) (ann : PyAnnot) :
    ToolFieldInfo :=
  let is_required := fi.default.isNone
  let original_type :=
    match ann with
    | .annotated base _ => base
    | .plain t => t
  let unwrapped := unwrapOptional original_type
  { name := name
    description := fi.description
    default := match fi.default with
      | some v => v
      | none => .none
    optional := unwrapped.2 || !is_required
    inferrable := true
    original_type := original_type
    field_type := unwrapped.1
    wire_type := none }

/-- The free-form string annotations attached to a parameter annotation
(extract_field_info: `[m for m in metadata if isinstance(m, str)]`). -/
def strAnnotsOf (ann : PyAnnot) : List String :=
  ann.metadata.filterMap fun m =>
    match m with
    | PyMeta.str s => some s
    | _ => none

/-- The tail of catalog.py extract_field_info, after the string-annotation
rules have fixed the field info `fi1`: the `Inferrable` scan over
`get_args(annotation)` sets the inferrable flag (defaulting to `True`), and
the wire type is computed (a string `Literal` maps through
`get_wire_type(str)`, anything else through its own field type). -/
def applyInferrableAndWireType (ann : PyAnnot) (fi1 : ToolFieldInfo) :
    Except RegError ToolFieldInfo :=
  let inferrableFlag :=
    match first_or_none_inferrable ann.getArgs with
    | some i => i.value
    | none => true
  match
    (if is_string_literal fi1.field_type then get_wire_type PyType.str
     else get_wire_type fi1.field_type) with
  | .error e => .error e
  | .ok wt => .ok { fi1 with inferrable := inferrableFlag, wire_type := wt }

/-- catalog.py extract_field_info: dispatch on the kind of default, then the
string-annotation rules (0 leaves the description alone, 1 sets the
description, 2 sets (name, description), more raises `ToolDefinitionError`),
then the inferrable flag and the wire type
(`applyInferrableAndWireType`). -/
def extract_field_info (p : PyParam) : Except RegError ToolFieldInfo :=
  match p.annot with
  | none => .error (.typeErrorNoAnnot p.name)
  | some ann =>
    let fi0 :=
      match p.default with
      | .fieldInfo fi => extract_pydantic_field_info p.name fi ann
      | d => extract_regular_field_info p.name d ann
    match strAnnotsOf ann with
    | [] => applyInferrableAndWireType ann fi0
    | [d] => applyInferrableAndWireType ann { fi0 with description := some d }
    | [n, d] => applyInferrableAndWireType ann { fi0 with name := n, description := some d }
    | _ => .error (.tooManyStringAnnots p.name)

/-- sdk/schemas.ValueSchema: a wire type plus optional enum values.
`val_type` is an `Option` because get_wire_type can fall through with `None`
(see `get_wire_type`). -/
structure ValueSchema where
  val_type : Option WireType
  enum : Option (List String)
deriving DecidableEq, Repr

/-- sdk/schemas.InputParameter as constructed by create_input_definition. -/
structure InputParameter where
  name : String
  description : String
  required : Bool
  inferrable : Bool
  value_schema : ValueSchema
deriving DecidableEq, Repr

/-- catalog.py create_input_definition: one InputParameter per declared
parameter, in declaration order; a parameter whose extracted description is
`None` raises `ToolDefinitionError`; `required` is
`default is None and not optional`; a string `Literal` contributes its enum
values. -/
def create_input_definition : List PyParam → Except RegError (List InputParameter)
  | [] => .ok []
  | p :: rest =>
    match extract_field_info p with
    | .error e => .error e
    | .ok fi =>
      match fi.description with
      | none => .error (.missingParameterDescription fi.name)
      | some desc =>
        let is_enum := is_string_literal fi.field_type
        let ip : InputParameter :=
          { name := fi.name
            description := desc
            required := fi.default.isNone && !fi.optional
            inferrable := fi.inferrable
            value_schema :=
              { val_type := fi.wire_type
                enum := if is_enum then some (stringLiteralValues fi.field_type) else none } }
        match create_input_definition rest with
        | .error e => .error e
        | .ok tail => .ok (ip :: tail)

/-- sdk/schemas.ToolOutput as constructed by create_output_definition. -/
structure ToolOutput where
  description : Option String
  available_modes : List String
  value_schema : Option ValueSchema
deriving DecidableEq, Repr

/-- catalog.py create_output_definition: no return annotation gives
`value_schema = None` with modes `["null"]`; an `Annotated` return takes its
first metadata item as the description (stored as `none` here when it is not
a string) and unwraps to its base type; an `Optional` return adds the
`"null"` mode; the wire type comes from get_wire_type (which may raise, or
silently yield `None`). -/
def create_output_definition (retAnnot : Option PyAnnot) : Except RegError ToolOutput :=
  match retAnnot with
  | none =>
    .ok { value_schema := none
          description := some "No description provided."
          available_modes := ["null"] }
  | some ann =>
    let withMeta :=
      match ann with
      | .annotated base meta =>
        (base,
         match meta.head? with
         | some (PyMeta.str s) => some s
         | _ => none)
      | .plain t => (t, some "No description provided.")
    let unwrapped := unwrapOptional withMeta.1
    match get_wire_type unwrapped.1 with
    | .error e => .error e
    | .ok wt =>
      .ok { description := withMeta.2
            available_modes :=
              if unwrapped.2 then ["value", "error", "null"] else ["value", "error"]
            value_schema := some { val_type := wt, enum := none } }

example :
    create_input_definition
      [{ name := "a", annot := some (.annotated .int [.str "first addend"]),
         default := .empty }] =
    .ok [{ name := "a", description := "first addend", required := true,
           inferrable := true,
           value_schema := { val_type := some .integer, enum := none } }] := rfl

/-- Python str.split(sep) for a single-character separator, implemented by
structural recursion over the character list (so that terms evaluate inside
the kernel): `"".split(sep) = [""]`, and every occurrence of the separator
starts a new field. -/
def pySplitGo (c : Char) : List Char → List Char → List String
  | [], acc => [String.mk acc.reverse]
  | x :: xs, acc =>
    if x = c then String.mk acc.reverse :: pySplitGo c xs []
    else pySplitGo c xs (x :: acc)

/-- Python str.split with a one-character separator. -/
def pySplit (c : Char) (s : String) : List String :=
  pySplitGo c s.data []

example : pySplit '_' "my_tool" = ["my", "tool"] := by decide
example : pySplit '_' "" = [""] := by decide

/-- Python str.lstrip restricted to the space character (no input in this
development contains other leading whitespace). -/
def pyLstripChars : List Char → List Char
  | [] => []
  | c :: cs => if c = ' ' then pyLstripChars cs else c :: cs

/-- Python str.lstrip on a string. -/
def pyLstrip (s : String) : String := String.mk (pyLstripChars s.data)

/-- Python str.capitalize: first character uppercased, the rest lowercased. -/
def pyCapitalize (w : String) : String :=
  match w.data with
  | [] => ""
  | c :: cs => String.mk (c.toUpper :: cs.map Char.toLower)

/-- Modelled from the spec: `snake_to_pascal_case` is imported by
arcade/tool/catalog.py and arcade/sdk/tool.py but its defining module is
absent from the sources; it is modelled after the sibling helper
`snake_to_camel` in arcade/utils/__init__.py, which implements exactly the
pascal-casing the spec describes:
`"".join(x.capitalize() or "_" for x in name.split("_"))`. -/
def snake_to_pascal_case (s : String) : String :=
  String.join ((pySplit '_' s).map fun x =>
    let c := pyCapitalize x
    if c = "" then "_" else c)

example : snake_to_pascal_case "my_tool" = "MyTool" := by decide
example : snake_to_pascal_case "My_Tool" = "MyTool" := by decide

/-- Python inspect.cleandoc (stdlib, called by the @tool decorator): split on
newlines, lstrip the first line, strip the common leading-space margin from
the later non-blank lines, and drop leading/trailing blank lines.  (Tab
expansion is omitted: no input in this development contains tabs.) -/
def cleandoc (doc : String) : String :=
  let lines := pySplit '\n' doc
  let margins := (lines.drop 1).filterMap fun l =>
    let content := (pyLstripChars l.data).length
    if content > 0 then some (l.data.length - content) else none
  let lines :=
    match lines with
    | [] => []
    | first :: rest =>
      match margins.min? with
      | some m => pyLstrip first :: rest.map (fun (l : String) => String.mk (l.data.drop m))
      | none => pyLstrip first :: rest
  let lines := (lines.reverse.dropWhile (fun l => l == "")).reverse
  let lines := lines.dropWhile (fun l => l == "")
  match lines with
  | [] => ""
  | l :: ls => ls.foldl (fun acc x => acc ++ "\n" ++ x) l

example : cleandoc "" = "" := by decide
example : cleandoc "Add two numbers." = "Add two numbers." := by decide
example : cleandoc "\n   Say hello.\n   " = "Say hello." := by decide

/-- Python `a or b` where `a` is a string-or-None: the left operand unless it
is falsy (`None` or the empty string). -/
def pyOrStr (a : Option String) (b : String) : String :=
  match a with
  | some s => if s = "" then b else s
  | none => b

/-- A native callable as seen by registration: its `__name__`, docstring,
whether its body contains a `return <expr>` statement
(arcade/utils.does_function_return_value), its declared parameters, and its
return annotation (`none` models `inspect.Signature.empty`). -/
structure NativeFunc where
  funcName : String
  docstring : Option String
  returnsValue : Bool
  params : List PyParam
  retAnnot : Option PyAnnot

/-- A callable together with the attributes read by
`getattr(tool, "__tool_name__", ...)` / `getattr(tool, "__tool_description__",
None)`: absent attributes are `none`.  (The `__tool_requires_auth__`
attribute is carried unchanged into ToolRequirements and no claim touches it,
so it is omitted.) -/
structure PyCallable where
  func : NativeFunc
  tool_name : Option String
  tool_description : Option String

/-- sdk/tool.py @tool decorator: sets `__tool_name__` to
`name or snake_to_pascal_case(func.__name__)` and `__tool_description__` to
`desc or inspect.cleandoc(func.__doc__ or "")`.  When neither `desc` nor a
docstring is given this stores the *empty string*, not `None`. -/
def tool_decorator (desc : Option String) (name : Option String) (f : NativeFunc) :
    PyCallable :=
  { func := f
    tool_name := some (pyOrStr name (snake_to_pascal_case f.funcName))
    tool_description := some (pyOrStr desc (cleandoc (f.docstring.getD ""))) }

/-- sdk/schemas.ToolDefinition as built by create_tool_definition.
(`requirements` carries the auth annotation through untouched and no claim
inspects it, so it is omitted.) -/
structure ToolDefinition where
  name : String
  description : String
  version : String
  inputs : List InputParameter
  output : ToolOutput
deriving DecidableEq, Repr

/-- catalog.py ToolCatalog.create_tool_definition: the name falls back to
`tool.__name__`; a `None` description raises `ToolDefinitionError`; a body
that returns a value without a return type annotation raises
`ToolDefinitionError`; then the input and output schemas are derived. -/
def create_tool_definition (t : PyCallable) (version : String) :
    Except RegError ToolDefinition :=
  let tool_name := t.tool_name.getD t.func.funcName
  match t.tool_description with
  | none => .error (.missingToolDescription tool_name)
  | some desc =>
    if t.func.returnsValue && t.func.retAnnot.isNone then
      .error (.missingReturnTypeAnnot tool_name)
    else
      match create_input_definition t.func.params with
      | .error e => .error e
      | .ok inputs =>
        match create_output_definition t.func.retAnnot with
        | .error e => .error e
        | .ok output =>
          .ok { name := tool_name
                description := desc
                version := version
                inputs := inputs
                output := output }

/-- One entry of the tool pack consumed by ToolCatalog.read_tools: the key
`name` from the lock file, the module, the version parsed from
`module.func@version`, and the resolved callable. -/
structure ToolSpecEntry where
  name : String
  module_name : String
  version : String
  func : PyCallable

/-- A catalog entry (catalog.py MaterializedTool): its definition and the
owning module recorded in ToolMeta.  (The callable reference and the derived
pydantic input/output models are not inspected by any claim.) -/
structure MaterializedToolE where
  definition : ToolDefinition
  module_name : String
deriving DecidableEq, Repr

/-- Python dict assignment `d[k] = v` on an insertion-ordered dict: overwrite
in place when the key exists, else append. -/
def dictInsert {α : Type} (m : List (String × α)) (k : String) (v : α) :
    List (String × α) :=
  if m.any (fun kv => kv.1 == k) then
    m.map fun kv => if kv.1 == k then (k, v) else kv
  else m ++ [(k, v)]

/-- catalog.py ToolCatalog.read_tools over an already-loaded tool pack: each
entry's definition is created (any inference error propagates) and the
materialized tool is stored under the key `snake_to_pascal_case(name)` — the
bare name only.  The version is **not** part of the key, and dict assignment
silently overwrites an existing entry with the same key. -/
def read_tools_loop (acc : List (String × MaterializedToolE)) :
    List ToolSpecEntry → Except RegError (List (String × MaterializedToolE))
  | [] => .ok acc
  | e :: rest =>
    match create_tool_definition e.func e.version with
    | .error err => .error err
    | .ok d =>
      read_tools_loop
        (dictInsert acc (snake_to_pascal_case e.name)
          { definition := d, module_name := e.module_name })
        rest

/-- The whole of read_tools: the loop started on the empty dict. -/
def read_tools (entries : List ToolSpecEntry) :
    Except RegError (List (String × MaterializedToolE)) :=
  read_tools_loop [] entries

/-- core/schema.ToolCallError.  Modelled from the spec: arcade/core/schema.py
is absent from the sources; the fields follow §6's wire format
(`message, developer_message, can_retry, additional_prompt_content,
retry_after_ms`) and are exactly those passed by the constructor calls in
arcade/core/output.py. -/
structure ToolCallError where
  message : String
  developer_message : Option String
  can_retry : Bool
  additional_prompt_content : Option String
  retry_after_ms : Option Int
deriving DecidableEq, Repr

/-- core/schema.ToolCallOutput: a value or an error.  Modelled from the spec
(the schema module is absent from the sources); both fields default to `None`
and output.py always sets exactly one of them. -/
structure ToolCallOutput where
  value : Option PyVal
  error : Option ToolCallError

/-- core/output.py ToolOutputFactory.success.  `data` models the pydantic
output-model instance handed in by the executor: `none` is `data=None`,
`some none` an instance without a `result` attribute, `some (some v)` an
instance whose `result` is `v`.  The Python expression
`data.result if data and hasattr(data, "result") and data.result else ""`
collapses any falsy result (`0`, `False`, `""`, `None`, `[]`) to the empty
string. -/
def ToolOutputFactory.success (data : Option (Option PyVal)) : ToolCallOutput :=
  let value :=
    match data with
    | some (some v) => if v.truthy then v else PyVal.str ""
    | _ => PyVal.str ""
  { value := some value, error := none }

/-- core/output.py ToolOutputFactory.fail: a non-retryable error envelope. -/
def ToolOutputFactory.fail (message : String) (developer_message : Option String) :
    ToolCallOutput :=
  { value := none
    error := some
      { message := message
        developer_message := developer_message
        can_retry := false
        additional_prompt_content := none
        retry_after_ms := none } }

/-- core/output.py ToolOutputFactory.fail_retry: a retryable error envelope
with `can_retry=True` and the retry hints passed through unchanged. -/
def ToolOutputFactory.fail_retry (message : String) (developer_message : Option String)
    (additional_prompt_content : Option String) (retry_after_ms : Option Int) :
    ToolCallOutput :=
  { value := none
    error := some
      { message := message
        developer_message := developer_message
        can_retry := true
        additional_prompt_content := additional_prompt_content
        retry_after_ms := retry_after_ms } }

/-- core/errors.py RetryableToolError: carries a message, an optional
developer message, optional additional prompt content and an optional
`wait_ms` retry delay. -/
structure RetryableToolError where
  message : String
  developer_message : Option String
  additional_prompt_content : Option String
  wait_ms : Option Int

/-- Modelled from the spec: the wire serialization of a primitive native
value (§6's wire values are JSON scalars and structures, so a primitive
serializes to itself). -/
def wireSerialize (v : PyVal) : PyVal := v

/-- Modelled from the spec: §4.3 — the Tool Executor (arcade/core/executor.py)
is absent from the sources.  On a successful native return it wraps the value
through `output_factory.success(data=output_model(result=value))`;
output.py's `success` (which IS in the sources) produces the final
envelope. -/
def executorRunSuccess (ret : PyVal) : ToolCallOutput :=
  ToolOutputFactory.success (some (some ret))

/-- Modelled from the spec: §4.3 step 4 — a raised `RetryableToolError`
"carries additionalPromptContent and waitMs", and the orchestrator receives
the retry delay and prompt content unmodified; the absent executor's catch
clause is modelled as calling output.py's `fail_retry` (which IS in the
sources) with the error's own fields. -/
def executorRunRetryableError (e : RetryableToolError) : ToolCallOutput :=
  ToolOutputFactory.fail_retry e.message e.developer_message
    e.additional_prompt_content e.wait_ms

/-- The invocation response as assembled by BaseActor.call_tool.
(`duration` and `finished_at` are wall-clock readings outside the
embedding.) -/
structure ToolCallResponse where
  invocation_id : String
  success : Bool
  output : ToolCallOutput

/-- actor/core/base.py BaseActor.call_tool's response assembly:
`invocation_id = tool_request.invocation_id or ""` and
`success = not output.error` (`None` is falsy, an error object is truthy). -/
def makeToolCallResponse (invocationId : Option String) (output : ToolCallOutput) :
    ToolCallResponse :=
  { invocation_id := pyOrStr invocationId ""
    success := output.error.isNone
    output := output }

/-- One registered route: endpoint path, HTTP method, and the `require_auth`
flag passed to `add_route` (default `True`). -/
structure RouteEntry where
  path : String
  method : String
  require_auth : Bool
deriving DecidableEq, Repr

/-- worker/core/components.py CatalogComponent.register:
`router.add_route("tools", self, method="GET")` — `require_auth` keeps its
default `True`.  (actor/core/base.py imports the identical components from
arcade/actor/core/components.py, which is absent from the sources;
arcade/worker/core/components.py is the copy present in them.) -/
def catalogRoute : RouteEntry :=
  { path := "tools", method := "GET", require_auth := true }

/-- worker/core/components.py CallToolComponent.register:
`router.add_route("tools/invoke", self, method="POST")` — `require_auth`
keeps its default `True`. -/
def callToolRoute : RouteEntry :=
  { path := "tools/invoke", method := "POST", require_auth := true }

/-- worker/core/components.py HealthCheckComponent.register:
`router.add_route("health", self, method="GET", require_auth=False)`. -/
def healthRoute : RouteEntry :=
  { path := "health", method := "GET", require_auth := false }

/-- actor/core/base.py BaseActor.register_routes over `default_components =
(CatalogComponent, CallToolComponent, HealthCheckComponent)`. -/
def registeredRoutes : List RouteEntry :=
  [catalogRoute, callToolRoute, healthRoute]

/-- The actor state built by BaseActor.__init__ that the claims inspect: the
catalog, the `disable_auth` flag, and the resolved shared secret.  The secret
keeps its Python dynamic type (`PyVal`): the parameter is declared
`str | None` but nothing coerces the value actually passed. -/
structure ActorState where
  catalog : List (String × MaterializedToolE)
  disable_auth : Bool
  secret : PyVal

/-- actor/core/base.py BaseActor._set_secret: `""` when auth is disabled,
else the provided secret if it `is not None`, else the
`ARCADE_ACTOR_SECRET` environment value, else a fatal `ValueError`. -/
def _set_secret (secret : Option PyVal) (disable_auth : Bool)
    (envSecret : Option String) : Except String PyVal :=
  if disable_auth then .ok (.str "")
  else
    match secret with
    | some s => .ok s
    | none =>
      match envSecret with
      | some e => .ok (.str e)
      | none =>
        .error "No secret provided for actor. Set the ARCADE_ACTOR_SECRET environment variable."

/-- actor/core/base.py BaseActor.__init__(secret=None, disable_auth=False):
builds an empty catalog, stores `disable_auth`, and resolves the secret via
`_set_secret`.  (`ToolCatalog()` here is arcade/core/catalog.py's empty
registry, a module absent from the sources; modelled from the spec as an
empty mapping.) -/
def baseActorInit (secret : Option PyVal) (disable_auth : Bool)
    (envSecret : Option String) : Except String ActorState := do
  let s ← _set_secret secret disable_auth envSecret
  pure { catalog := [], disable_auth := disable_auth, secret := s }

/-- actor/fastapi/actor.py FastAPIActor.__init__: calls
`super().__init__(disable_auth)` — the keyword-only `disable_auth` flag is
forwarded as the *positional* `secret` argument of BaseActor.__init__, whose
own `disable_auth` parameter keeps its default `False`.  The boolean travels
as a `PyVal.bool` because Python passes it untyped into the `str | None`
parameter. -/
def fastAPIActorInit (disable_auth : Bool) (envSecret : Option String) :
    Except String ActorState :=
  baseActorInit (some (.bool disable_auth)) false envSecret

/-- actor/fastapi/actor.py FastAPIRouter._wrap_handler:
`use_auth_for_route = not self.actor.disable_auth and require_auth`. -/
def use_auth_for_route (disable_auth : Bool) (require_auth : Bool) : Bool :=
  !disable_auth && require_auth

/-- The health-check body returned by actor/core/base.py
BaseActor.health_check: `{"status": "ok", "tool_count": len(self.catalog)}`. -/
structure HealthBody where
  status : String
  tool_count : Nat
deriving DecidableEq, Repr

/-- actor/core/base.py BaseActor.health_check.  `len(self.catalog)` is the
number of registered tools (arcade/core/catalog.py is absent from the
sources, so the length is modelled from the spec as the registry size). -/
def health_check (actor : ActorState) : HealthBody :=
  { status := "ok", tool_count := actor.catalog.length }

/-- A response at the routing layer. -/
inductive RouteResponse where
  | unauthorized
  | healthOk (body : HealthBody)
  | handled

/-- The request pipeline of FastAPIRouter._wrap_handler for one registered
route: the auth dependency is attached only when `use_auth_for_route`; when
attached and the shared-secret check fails, the request is rejected before
the component handler runs; otherwise the handler's response is returned.
`authPassed` models the outcome of the shared-secret middleware
(`validate_engine_request`, a function absent from the sources; spec §6:
"bearer-style shared secret in a request header, checked once per request
before any component logic runs"). -/
def routePipeline (disable_auth : Bool) (route : RouteEntry) (authPassed : Bool)
    (handler : RouteResponse) : RouteResponse :=
  if use_auth_for_route disable_auth route.require_auth && !authPassed then
    .unauthorized
  else handler

/-- A request hitting the health-check route: the pipeline wraps
HealthCheckComponent, whose handler returns `worker.health_check()`. -/
def handleHealthRequest (actor : ActorState) (authPassed : Bool) : RouteResponse :=
  routePipeline actor.disable_auth healthRoute authPassed
    (.healthOk (health_check actor))

/-- Whether a declared default is a plain (non-`FieldInfo`) one: these are the
defaults routed to extract_regular_field_info. -/
def ParamDefault.isRegular : ParamDefault → Bool
  | .fieldInfo _ => false
  | _ => true

/-- Whether the parameter declares a plain default value other than `None`
(a declared default of `None` is stored indistinguishably from no default by
extract_regular_field_info). -/
def ParamDefault.isNonNullValue : ParamDefault → Bool
  | .val v => !v.isNone
  | _ => false

/-- The description supplied by a pydantic `Field(...)` default, if any. -/
def ParamDefault.fieldDescription : ParamDefault → Option String
  | .fieldInfo fi => fi.description
  | _ => none

/-- The underlying type of an annotation (`Annotated[...]` unwrapped to its
first argument, a bare type left alone). -/
def PyAnnot.baseType : PyAnnot → PyType
  | .plain t => t
  | .annotated b _ => b

/-- Whether the declared type is optional/nullable-wrapped, i.e. whether the
Optional-unwrap step fires on its base type. -/
def PyAnnot.isOptionalWrapped (ann : PyAnnot) : Bool :=
  (unwrapOptional ann.baseType).2

/-- A concrete callable with no parameters, no docstring and no return value,
used as a registration subject. -/
def sayHelloFunc : NativeFunc :=
  { funcName := "say_hello", docstring := none, returnsValue := false,
    params := [], retAnnot := none }

/-- A concrete already-described callable named `my_tool`. -/
def firstToolFunc : PyCallable :=
  { func := { funcName := "my_tool", docstring := none, returnsValue := false,
              params := [], retAnnot := none }
    tool_name := none
    tool_description := some "first registered tool" }

/-- A second concrete callable, also named `my_tool`, with a different
description so that the two definitions are distinguishable. -/
def secondToolFunc : PyCallable :=
  { func := { funcName := "my_tool", docstring := none, returnsValue := false,
              params := [], retAnnot := none }
    tool_name := none
    tool_description := some "second registered tool" }

/-- A tool-pack entry whose lock-file key is `my_tool`. -/
def firstEntry : ToolSpecEntry :=
  { name := "my_tool", module_name := "mod_a", version := "1.0.0", func := firstToolFunc }

/-- A tool-pack entry whose lock-file key is `My_Tool` — a different key that
pascal-cases to the same catalog key `MyTool`, with the same version. -/
def secondEntry : ToolSpecEntry :=
  { name := "My_Tool", module_name := "mod_b", version := "1.0.0", func := secondToolFunc }

/-- A concrete parameter declared `count: int = Field(default=1,
description="how many")`: no string annotations; the description comes from
the pydantic field descriptor. -/
def countParam : PyParam :=
  { name := "count"
    annot := some (.plain .int)
    default := .fieldInfo { default := some (.int 1), description := some "how many" } }

/-- A concrete parameter declared `a: Annotated[int, "first addend"]`: one
string annotation, no default, not optional. -/
def addendParam : PyParam :=
  { name := "a"
    annot := some (.annotated .int [.str "first addend"])
    default := .empty }

/-- Shared lemma: the `first_or_none(Inferrable, get_args(annotation))` scan
never finds anything — `InferrableInst` is empty, so the scan of any argument
list returns `None`. -/
theorem first_or_none_inferrable_eq_none (l : List PyMeta) :
    first_or_none_inferrable l = none := by
  induction l with
  | nil => rfl
  | cons x xs ih =>
    cases x with
    | inferrableInst i => exact nomatch i
    | str s => simpa [first_or_none_inferrable] using ih
    | typeObj t => simpa [first_or_none_inferrable] using ih
    | classObj n => simpa [first_or_none_inferrable] using ih
    | otherObj n => simpa [first_or_none_inferrable] using ih

/-- C2: the native-type to wire-type table holds exactly as stated
(str→string, bool→boolean, int→integer, float→float, dict/list/BaseModel and
its subclasses/parameterized list-dict→json), and an unmapped *bare* class
raises a `ToolDefinitionError` — but the claim's totality part fails: a
parameterized type whose `__origin__` is neither `list` nor `dict` (such as
`set[int]`, `tuple[int, int]` or `Union[int, str]`) makes get_wire_type fall
off the end of its `elif` chain and silently return `None` instead of
raising. -/
theorem get_wire_type_table_and_silent_none :
    get_wire_type .str = .ok (some .string) ∧
    get_wire_type .bool = .ok (some .boolean) ∧
    get_wire_type .int = .ok (some .integer) ∧
    get_wire_type .float = .ok (some .float) ∧
    get_wire_type .dict = .ok (some .json) ∧
    get_wire_type .list = .ok (some .json) ∧
    get_wire_type .baseModel = .ok (some .json) ∧
    get_wire_type (.modelSub "ProductOutput") = .ok (some .json) ∧
    get_wire_type (.generic .list [.str]) = .ok (some .json) ∧
    get_wire_type (.generic .dict [.str, .int]) = .ok (some .json) ∧
    get_wire_type (.otherType "bytes") = .error .unsupportedParameterType ∧
    RegError.unsupportedParameterType.isToolDefinitionError = true ∧
    get_wire_type (.generic .set [.int]) = .ok none ∧
    get_wire_type (.generic .tuple [.int, .int]) = .ok none ∧
    get_wire_type (.unionOf [.int, .str]) = .ok none :=
  ⟨rfl, rfl, rfl, rfl, rfl, rfl, rfl, rfl, rfl, rfl, rfl, rfl, rfl, rfl, rfl⟩

/-- C9: the health-check component registers its route with
`require_auth = False`, so a request to it — whatever the outcome of the
shared-secret check, and whether or not the actor has authentication
enabled — always reaches the handler and returns
`{"status": "ok", "tool_count": <number of registered tools>}`. -/
theorem health_check_exempt_from_auth (actor : ActorState) (authPassed : Bool) :
    healthRoute.require_auth = false ∧
    healthRoute ∈ registeredRoutes ∧
    handleHealthRequest actor authPassed =
      .healthOk { status := "ok", tool_count := actor.catalog.length } := by
  refine ⟨rfl, by simp [registeredRoutes], ?_⟩
  simp [handleHealthRequest, routePipeline, use_auth_for_route, healthRoute, health_check]

/-- C10: constructing a FastAPIActor with `disable_auth=True` forwards the
flag positionally into the `secret` parameter of BaseActor.__init__, so the
resulting actor has `disable_auth = False` and the boolean `True` as its
shared secret, and the catalog and invoke routes are still wrapped with the
authentication dependency (only health-check is not). -/
theorem fastapi_disable_auth_misforwarded (envSecret : Option String) :
    fastAPIActorInit true envSecret =
      .ok { catalog := [], disable_auth := false, secret := .bool true } ∧
    use_auth_for_route false catalogRoute.require_auth = true ∧
    use_auth_for_route false callToolRoute.require_auth = true ∧
    use_auth_for_route false healthRoute.require_auth = false :=
  ⟨rfl, rfl, rfl, rfl⟩

/-- C1 counterexample: a registered tool whose native callable returns the
falsy value `0` produces an invocation response with `success = true` but
`output.value = ""`, which is not the wire-serialized form of `0`. -/
theorem success_output_falsy_counterexample :
    (makeToolCallResponse (some "inv-1") (executorRunSuccess (.int 0))).success = true ∧
    (makeToolCallResponse (some "inv-1") (executorRunSuccess (.int 0))).output.value =
      some (.str "") ∧
    some (PyVal.str "") ≠ some (wireSerialize (.int 0)) := by
  refine ⟨rfl, rfl, fun h => ?_⟩
  exact PyVal.noConfusion (Option.some.inj h)

/-- C1 amended: invoking a registered tool with all required inputs present
yields `success = true`, and `output.value` equals the wire-serialized native
return value whenever that value is truthy; a falsy return value (`0`,
`False`, `""`, `None`, `[]`) is replaced by the empty string by
ToolOutputFactory.success. -/
theorem success_output_wire_form (ret : PyVal) (invId : Option String) :
    (makeToolCallResponse invId (executorRunSuccess ret)).success = true ∧
    (makeToolCallResponse invId (executorRunSuccess ret)).output.value =
      some (if ret.truthy then wireSerialize ret else .str "") := by
  refine ⟨rfl, ?_⟩
  simp [makeToolCallResponse, executorRunSuccess, ToolOutputFactory.success, wireSerialize]

/-- C8: a native callable raising a RetryableToolError whose retry delay is
500ms yields a response with `success = false` whose error envelope has
`can_retry = true`, `retry_after_ms = 500`, and the message, developer
message and additional prompt content passed through unmodified. -/
theorem retryable_error_passthrough (e : RetryableToolError) (invId : Option String)
    (h : e.wait_ms = some 500) :
    (makeToolCallResponse invId (executorRunRetryableError e)).success = false ∧
    (makeToolCallResponse invId (executorRunRetryableError e)).output.error =
      some { message := e.message
             developer_message := e.developer_message
             can_retry := true
             additional_prompt_content := e.additional_prompt_content
             retry_after_ms := some 500 } := by
  refine ⟨rfl, ?_⟩
  simp [makeToolCallResponse, executorRunRetryableError, ToolOutputFactory.fail_retry, h]

/-- C8 witness: the passthrough theorem applied to a concrete
RetryableToolError with a 500ms delay. -/
theorem retryable_error_passthrough_witness :
    (makeToolCallResponse (some "inv-7")
        (executorRunRetryableError
          { message := "quota exceeded"
            developer_message := none
            additional_prompt_content := some "try a smaller page size"
            wait_ms := some 500 })).success = false ∧
    (makeToolCallResponse (some "inv-7")
        (executorRunRetryableError
          { message := "quota exceeded"
            developer_message := none
            additional_prompt_content := some "try a smaller page size"
            wait_ms := some 500 })).output.error =
      some { message := "quota exceeded"
             developer_message := none
             can_retry := true
             additional_prompt_content := some "try a smaller page size"
             retry_after_ms := some 500 } :=
  retryable_error_passthrough
    { message := "quota exceeded"
      developer_message := none
      additional_prompt_content := some "try a smaller page size"
      wait_ms := some 500 } (some "inv-7") rfl

/-- Shared lemma: when the final stage of extract_field_info succeeds it sets
`inferrable := true` (the scan finds nothing) and the wire type, and leaves
every other field of the incoming field info unchanged. -/
theorem applyIWT_ok (ann : PyAnnot) (fi1 fi : ToolFieldInfo)
    (h : applyInferrableAndWireType ann fi1 = .ok fi) :
    fi.inferrable = true ∧ fi.default = fi1.default ∧ fi.optional = fi1.optional ∧
    fi.description = fi1.description ∧ fi.name = fi1.name ∧
    fi.field_type = fi1.field_type := by
  unfold applyInferrableAndWireType at h
  rw [first_or_none_inferrable_eq_none] at h
  dsimp only at h
  split at h
  · exact Except.noConfusion h
  · injection h with h2
    rw [← h2]
    exact ⟨rfl, rfl, rfl, rfl, rfl, rfl⟩

/-- C4: for every parameter that schema inference accepts, the derived field
info has `inferrable = true` — there is no annotation a tool author can
attach that produces `inferrable = false`: `Inferrable`/`Opaque` cannot be
instantiated (`BaseParamAnnotation.__new__` raises), their subscriptions
erase to plain `Annotated` aliases, and catalog.py never consults `Opaque`,
so the `first_or_none(Inferrable, ...)` scan never finds anything. -/
theorem inferrable_always_true (p : PyParam) (fi : ToolFieldInfo)
    (h : extract_field_info p = .ok fi) : fi.inferrable = true := by
  unfold extract_field_info at h
  split at h
  · exact Except.noConfusion h
  · dsimp only at h
    split at h
    · exact (applyIWT_ok _ _ _ h).1
    · exact (applyIWT_ok _ _ _ h).1
    · exact (applyIWT_ok _ _ _ h).1
    · exact Except.noConfusion h

/-- C4 witness: a parameter annotated with the sdk's own not-inferrable
marker class (`Annotated[str, "API token", Opaque]`) still comes out with
`inferrable = true`. -/
theorem inferrable_always_true_witness :
    extract_field_info
      { name := "token"
        annot := some (.annotated .str [.str "API token", .classObj "Opaque"])
        default := .empty } =
      .ok { name := "token", description := some "API token", default := PyVal.none,
            original_type := PyType.str, field_type := PyType.str,
            wire_type := some .string, optional := false, inferrable := true } ∧
    ToolFieldInfo.inferrable
      { name := "token", description := some "API token", default := PyVal.none,
        original_type := PyType.str, field_type := PyType.str,
        wire_type := some .string, optional := false, inferrable := true } = true :=
  ⟨rfl,
   inferrable_always_true
     { name := "token"
       annot := some (.annotated .str [.str "API token", .classObj "Opaque"])
       default := .empty } _ rfl⟩

/-- C5 counterexample: the @tool decorator applied to a callable with neither
a `desc` argument nor a docstring stores the *empty string* as the tool
description, and create_tool_definition accepts it: the tool registers with
`description = ""` instead of raising a ToolDefinitionError. -/
theorem empty_description_registers :
    (tool_decorator none none sayHelloFunc).tool_description = some "" ∧
    create_tool_definition (tool_decorator none none sayHelloFunc) "0.1.0" =
      .ok { name := "SayHello", description := "", version := "0.1.0", inputs := [],
            output := { description := some "No description provided.",
                        available_modes := ["null"], value_schema := none } } := by
  constructor
  · decide
  · decide

/-- C5 amended: create_tool_definition raises the missing-description
ToolDefinitionError exactly when the callable's description attribute is
absent (`None`); any present description — the empty string included — is
carried verbatim into the registered definition. -/
theorem description_none_rejected_present_kept (t : PyCallable) (v : String) :
    (t.tool_description = none →
      create_tool_definition t v =
        .error (.missingToolDescription (t.tool_name.getD t.func.funcName))) ∧
    (∀ d df, t.tool_description = some d →
      create_tool_definition t v = .ok df → df.description = d) := by
  constructor
  · intro hnone
    unfold create_tool_definition
    rw [hnone]
  · intro d df hsome h
    unfold create_tool_definition at h
    rw [hsome] at h
    dsimp only at h
    split at h
    · exact Except.noConfusion h
    · split at h
      · exact Except.noConfusion h
      · split at h
        · exact Except.noConfusion h
        · injection h with h2
          rw [← h2]

/-- C5 witness: the amended theorem applied to the concrete decorated
callable whose stored description is the empty string. -/
theorem description_none_rejected_present_kept_witness :
    (tool_decorator none none sayHelloFunc).tool_description = some "" ∧
    create_tool_definition (tool_decorator none none sayHelloFunc) "0.1.0" =
      .ok { name := "SayHello", description := "", version := "0.1.0", inputs := [],
            output := { description := some "No description provided.",
                        available_modes := ["null"], value_schema := none } } ∧
    ToolDefinition.description
      { name := "SayHello", description := "", version := "0.1.0", inputs := [],
        output := { description := some "No description provided.",
                    available_modes := ["null"], value_schema := none } } = "" :=
  ⟨by decide, by decide,
   (description_none_rejected_present_kept (tool_decorator none none sayHelloFunc) "0.1.0").2
     "" _ (by decide) (by decide)⟩

/-- C3 counterexample: two tool-pack entries with the same version whose keys
both pascal-case to `MyTool`: read_tools raises no error and the second
registration silently replaces the first — the catalog ends with exactly one
entry, keyed by name alone, holding the second tool's definition. -/
theorem read_tools_overwrite_counterexample :
    snake_to_pascal_case firstEntry.name = snake_to_pascal_case secondEntry.name ∧
    firstEntry.version = secondEntry.version ∧
    read_tools [firstEntry, secondEntry] =
      .ok [("MyTool",
            { definition := { name := "my_tool", description := "second registered tool",
                              version := "1.0.0", inputs := [],
                              output := { description := some "No description provided.",
                                          available_modes := ["null"], value_schema := none } },
              module_name := "mod_b" })] := by
  refine ⟨by decide, rfl, by decide⟩

/-- C3 amended: the catalog key is the pascal-cased bare name only.  Whenever
two entries map to the same key — same or different versions — registration
succeeds without any error and the second entry silently overwrites the
first. -/
theorem read_tools_same_key_overwrites (e1 e2 : ToolSpecEntry) (d1 d2 : ToolDefinition)
    (h1 : create_tool_definition e1.func e1.version = .ok d1)
    (h2 : create_tool_definition e2.func e2.version = .ok d2)
    (hk : snake_to_pascal_case e1.name = snake_to_pascal_case e2.name) :
    read_tools [e1, e2] =
      .ok [(snake_to_pascal_case e2.name,
            { definition := d2, module_name := e2.module_name })] := by
  simp only [read_tools, read_tools_loop, h1, h2]
  simp [dictInsert, hk]

/-- C3 witness: the amended theorem applied to the two concrete colliding
entries. -/
theorem read_tools_same_key_overwrites_witness :
    read_tools [firstEntry, secondEntry] =
      .ok [(snake_to_pascal_case secondEntry.name,
            { definition := { name := "my_tool", description := "second registered tool",
                              version := "1.0.0", inputs := [],
                              output := { description := some "No description provided.",
                                          available_modes := ["null"], value_schema := none } },
              module_name := secondEntry.module_name })] :=
  read_tools_same_key_overwrites firstEntry secondEntry
    { name := "my_tool", description := "first registered tool", version := "1.0.0",
      inputs := [],
      output := { description := some "No description provided.",
                  available_modes := ["null"], value_schema := none } }
    { name := "my_tool", description := "second registered tool", version := "1.0.0",
      inputs := [],
      output := { description := some "No description provided.",
                  available_modes := ["null"], value_schema := none } }
    (by decide) (by decide) (by decide)

/-- Shared lemma: the stored default of the regular extractor — a `None` or
absent declared default is stored as `None`, any other value verbatim. -/
theorem extract_regular_default_eq (n : String) (d : ParamDefault) (ann : PyAnnot) :
    (extract_regular_field_info n d ann).default =
      (match d with | .val v => v | _ => PyVal.none) := rfl

/-- Shared lemma: the regular extractor's optional flag is exactly "the
declared type is optional/nullable-wrapped". -/
theorem extract_regular_optional_eq (n : String) (d : ParamDefault) (ann : PyAnnot) :
    (extract_regular_field_info n d ann).optional = ann.isOptionalWrapped := by
  cases ann <;> rfl

/-- Shared lemma: the description of the pre-annotation field info is the
pydantic field descriptor's description when the default is a field, and
absent otherwise. -/
theorem fi0_description_eq (p : PyParam) (ann : PyAnnot) :
    (match p.default with
     | ParamDefault.fieldInfo f => extract_pydantic_field_info p.name f ann
     | d => extract_regular_field_info p.name d ann).description =
      p.default.fieldDescription := by
  rcases hd : p.default with _ | v | f <;> rfl

/-- Shared lemma: the name of the pre-annotation field info is the declared
parameter name in both branches. -/
theorem fi0_name_eq (p : PyParam) (ann : PyAnnot) :
    (match p.default with
     | ParamDefault.fieldInfo f => extract_pydantic_field_info p.name f ann
     | d => extract_regular_field_info p.name d ann).name = p.name := by
  rcases hd : p.default with _ | v | f <;> rfl

/-- Shared lemma: for a parameter with a regular (non-field-descriptor)
default, a successful extract_field_info yields the regular extractor's
default and optional flags unchanged. -/
theorem extract_ok_regular_default_optional (p : PyParam) (ann : PyAnnot)
    (fi : ToolFieldInfo)
    (hann : p.annot = some ann) (hreg : p.default.isRegular = true)
    (h : extract_field_info p = .ok fi) :
    fi.default = (match p.default with | .val v => v | _ => PyVal.none) ∧
    fi.optional = ann.isOptionalWrapped := by
  unfold extract_field_info at h
  rw [hann] at h
  dsimp only at h
  rcases hd : p.default with _ | v | f
  case fieldInfo =>
    rw [hd] at hreg
    exact absurd hreg (by simp [ParamDefault.isRegular])
  all_goals
    rw [hd] at h
    dsimp only at h
    rcases hs : strAnnotsOf ann with _ | ⟨a, _ | ⟨b, _ | ⟨c, rest⟩⟩⟩ <;>
        rw [hs] at h <;> dsimp only at h
  all_goals first
    | exact Except.noConfusion h
    | (obtain ⟨-, hdef, hopt, -, -, -⟩ := applyIWT_ok _ _ _ h
       rw [hdef, hopt]
       refine ⟨rfl, ?_⟩
       cases ann <;> rfl)

/-- C6: for a parameter with a plain default (or none), the derived
InputParameter is required exactly when the parameter has neither a non-null
declared default value nor an optional/nullable-wrapped type: a non-null
default or an optional wrapper alone makes it not required, and a declared
default of `None` itself still yields `required = true` when the type is not
optional. -/
theorem required_iff_no_default_and_not_optional (p : PyParam) (ann : PyAnnot)
    (ip : InputParameter)
    (hann : p.annot = some ann) (hreg : p.default.isRegular = true)
    (h : create_input_definition [p] = .ok [ip]) :
    ip.required = (!p.default.isNonNullValue && !ann.isOptionalWrapped) := by
  simp only [create_input_definition] at h
  cases hfi : extract_field_info p with
  | error e => rw [hfi] at h; exact Except.noConfusion h
  | ok fi =>
    rw [hfi] at h
    dsimp only at h
    cases hdesc : fi.description with
    | none => rw [hdesc] at h; exact Except.noConfusion h
    | some desc =>
      rw [hdesc] at h
      dsimp only at h
      injection h with h2
      obtain ⟨hip, -⟩ := List.cons.inj h2.symm
      obtain ⟨hdef, hopt⟩ := extract_ok_regular_default_optional p ann fi hann hreg hfi
      rw [hip]
      dsimp only
      rw [hdef, hopt]
      rcases hd : p.default with _ | v | f
      · rfl
      · simp [ParamDefault.isNonNullValue, PyVal.isNone]
      · rw [hd] at hreg
        exact absurd hreg (by simp [ParamDefault.isRegular])

/-- C6 witness: the theorem applied to the described integer parameter with
no default and no optional wrapper, which comes out required. -/
theorem required_iff_witness :
    addendParam.annot = some (.annotated .int [.str "first addend"]) ∧
    addendParam.default.isRegular = true ∧
    create_input_definition [addendParam] =
      .ok [{ name := "a", description := "first addend", required := true,
             inferrable := true,
             value_schema := { val_type := some .integer, enum := none } }] ∧
    InputParameter.required
      { name := "a", description := "first addend", required := true,
        inferrable := true,
        value_schema := { val_type := some .integer, enum := none } } =
      (!(addendParam.default.isNonNullValue) &&
       !((PyAnnot.annotated .int [.str "first addend"]).isOptionalWrapped)) :=
  ⟨rfl, rfl, by decide,
   required_iff_no_default_and_not_optional addendParam
     (.annotated .int [.str "first addend"]) _ rfl rfl (by decide)⟩

/-- C7 counterexample: a parameter with *zero* free-form text annotations
whose default is a pydantic field descriptor carrying a description registers
without any error — zero text annotations is not, by itself, a
registration-time error. -/
theorem zero_annots_field_description_registers :
    strAnnotsOf (PyAnnot.plain .int) = [] ∧
    create_input_definition [countParam] =
      .ok [{ name := "count", description := "how many", required := false,
             inferrable := true,
             value_schema := { val_type := some .integer, enum := none } }] :=
  ⟨rfl, by decide⟩

/-- C7 amended: the free-form text annotation count drives schema inference
as follows — more than two raises a `ToolDefinitionError`; zero leaves the
description to the parameter's field-descriptor default, if any (and a
parameter whose description ends up absent is a registration-time error);
exactly one sets the description only; exactly two set (rename, description)
in that order. -/
theorem string_annot_count_rules (p : PyParam) (ann : PyAnnot)
    (hann : p.annot = some ann) :
    ((strAnnotsOf ann).length > 2 →
      extract_field_info p = .error (.tooManyStringAnnots p.name)) ∧
    (∀ fi, extract_field_info p = .ok fi →
      fi.description =
        (match strAnnotsOf ann with
         | [] => p.default.fieldDescription
         | [d] => some d
         | _ :: d :: _ => some d)) ∧
    (∀ fi, extract_field_info p = .ok fi →
      fi.name =
        (match strAnnotsOf ann with
         | [r, _] => r
         | _ => p.name)) ∧
    (∀ fi, extract_field_info p = .ok fi → fi.description = none →
      create_input_definition [p] = .error (.missingParameterDescription fi.name)) := by
  refine ⟨?_, ?_, ?_, ?_⟩
  · intro hlen
    unfold extract_field_info
    rw [hann]
    dsimp only
    rcases hs : strAnnotsOf ann with _ | ⟨a, _ | ⟨b, _ | ⟨c, rest⟩⟩⟩ <;>
        rw [hs] at hlen
    · exact absurd hlen (by simp)
    · exact absurd hlen (by simp)
    · exact absurd hlen (by simp)
  · intro fi h
    unfold extract_field_info at h
    rw [hann] at h
    dsimp only at h
    rcases hs : strAnnotsOf ann with _ | ⟨a, _ | ⟨b, _ | ⟨c, rest⟩⟩⟩ <;>
        rw [hs] at h <;> dsimp only at h
    · rw [(applyIWT_ok _ _ _ h).2.2.2.1]
      exact fi0_description_eq p ann
    · exact (applyIWT_ok _ _ _ h).2.2.2.1
    · exact (applyIWT_ok _ _ _ h).2.2.2.1
    · exact Except.noConfusion h
  · intro fi h
    unfold extract_field_info at h
    rw [hann] at h
    dsimp only at h
    rcases hs : strAnnotsOf ann with _ | ⟨a, _ | ⟨b, _ | ⟨c, rest⟩⟩⟩ <;>
        rw [hs] at h <;> dsimp only at h
    · rw [(applyIWT_ok _ _ _ h).2.2.2.2.1]
      exact fi0_name_eq p ann
    · rw [(applyIWT_ok _ _ _ h).2.2.2.2.1]
      exact fi0_name_eq p ann
    · exact (applyIWT_ok _ _ _ h).2.2.2.2.1
    · exact Except.noConfusion h
  · intro fi h hdesc
    simp only [create_input_definition]
    rw [h]
    dsimp only
    rw [hdesc]

/-- C7 witness: the rules applied to the concrete field-descriptor parameter
with zero string annotations, whose extracted description is the pydantic
field's "how many" and whose name stays "count". -/
theorem string_annot_count_rules_witness :
    extract_field_info countParam =
      .ok { name := "count", description := some "how many", default := .int 1,
            original_type := PyType.int, field_type := PyType.int,
            wire_type := some .integer, optional := true, inferrable := true } ∧
    ToolFieldInfo.description
      { name := "count", description := some "how many", default := .int 1,
        original_type := PyType.int, field_type := PyType.int,
        wire_type := some .integer, optional := true, inferrable := true } =
      (match strAnnotsOf (PyAnnot.plain .int) with
       | [] => countParam.default.fieldDescription
       | [d] => some d
       | _ :: d :: _ => some d) ∧
    ToolFieldInfo.name
      { name := "count", description := some "how many", default := .int 1,
        original_type := PyType.int, field_type := PyType.int,
        wire_type := some .integer, optional := true, inferrable := true } =
      (match strAnnotsOf (PyAnnot.plain .int) with
       | [r, _] => r
       | _ => countParam.name) :=
  ⟨rfl,
   (string_annot_count_rules countParam (PyAnnot.plain .int) rfl).2.1
     { name := "count", description := some "how many", default := .int 1,
       original_type := PyType.int, field_type := PyType.int,
       wire_type := some .integer, optional := true, inferrable := true } rfl,
   (string_annot_count_rules countParam (PyAnnot.plain .int) rfl).2.2.1
     { name := "count", description := some "how many", default := .int 1,
       original_type := PyType.int, field_type := PyType.int,
       wire_type := some .integer, optional := true, inferrable := true } rfl⟩

end Arcade
